import Mathlib

/-!
Verification of the weather-monitor ingestion-and-aggregation pipeline.

Shallow embedding of the repository's core components:
* `src/alerts.py` — the consecutive-breach alert detector (`AlertSystem.check_alert`);
* `src/data_processing.py` — the observation normalizer (`process_weather_data`)
  and the daily aggregator (`calculate_daily_summary`);
* `src/database/db_operations.py` — summary storage (`store_daily_summaries`);
* `src/mock_data_generator.py` — the mock reading generator
  (`generate_mock_weather_data`).

Python floats are modelled as exact rationals (ℚ); Python's `round(x, 2)`
(round-half-to-even on the scaled value) is modelled by `round2` below.
Randomness (`random.uniform`, `random.choices`) and `math.sin` are modelled
as oracle function parameters, constrained by hypotheses in theorems exactly
as the library documents their ranges.
-/

namespace WeatherMonitor

/-! ### Rounding

Python's built-in `round(x, 2)` rounds `100 * x` to the nearest integer,
halves to the even neighbour, then divides by 100.  `rhe` is that
round-half-to-even integer rounding on ℚ. -/

/-- Round a rational to the nearest integer, halves to even (Python `round`):
the floor when the fractional part is below one half, the ceiling when it is
above, and the even neighbour at exactly one half. -/
def rhe (x : ℚ) : ℤ :=
  if x - ⌊x⌋ < 1/2 then ⌊x⌋
  else if 1/2 < x - ⌊x⌋ then ⌊x⌋ + 1
  else if ⌊x⌋ % 2 = 0 then ⌊x⌋ else ⌊x⌋ + 1

/-- Python `round(x, 2)`: round to two decimal places, halves to even. -/
def round2 (x : ℚ) : ℚ := (rhe (100 * x) : ℚ) / 100

/-! ### Alert detector — `src/alerts.py`

`AlertSystem.alert_count` is a Python dict read only through
`.get(city, 0)`, so it is modelled as a total function `String → ℕ`
defaulting to 0.  Configuration constants are from `config/config.py`.
The Python `check_alert` returns `None` on every path; the `Bool` in the
model records whether `_trigger_alert` (the alert `print`) was invoked on
the call, so the model keeps the fired/not-fired information the source
only exposes as a side effect. -/

/-- Config constant `ALERT_THRESHOLD = 30` from `config/config.py`. -/
def ALERT_THRESHOLD : ℚ := 30

/-- Config constant `CONSECUTIVE_ALERTS = 2` from `config/config.py`. -/
def CONSECUTIVE_ALERTS : ℕ := 2

/-- State transition of `AlertSystem.check_alert(city, temp)`:
returns the updated per-city counters and whether `_trigger_alert` ran. -/
def check_alert (counts : String → ℕ) (city : String) (temp : ℚ) :
    (String → ℕ) × Bool :=
  if ALERT_THRESHOLD < temp then
    if CONSECUTIVE_ALERTS ≤ counts city + 1 then
      (fun c => if c = city then 0 else counts c, true)
    else
      (fun c => if c = city then counts city + 1 else counts c, false)
  else
    (fun c => if c = city then 0 else counts c, false)

/-- Run a sequence of `check_alert` calls, threading the counter state. -/
def run_alerts (counts : String → ℕ) : List (String × ℚ) → (String → ℕ)
  | [] => counts
  | (c, t) :: rest => run_alerts (check_alert counts c t).1 rest

/-- Initial `AlertSystem` state: `alert_count = {}`, every read is 0. -/
def initial_alert_count : String → ℕ := fun _ => 0

/-! ### Raw and processed records — `src/data_processing.py` -/

/-- One element of the raw `data['weather']` list. -/
structure WeatherItem where
  main : Option String
  description : Option String
  deriving DecidableEq

/-- The raw `data['main']` sub-dictionary. -/
structure MainBlock where
  temp : Option ℚ
  feels_like : Option ℚ
  deriving DecidableEq

/-- A raw reading as consumed by `process_weather_data`; each field is
`Option` because the corresponding dictionary key may be absent. -/
structure RawData where
  name : Option String
  main : Option MainBlock
  weather : Option (List WeatherItem)
  dt : Option ℤ
  deriving DecidableEq

/-- The dictionary built by `process_weather_data` on success. -/
structure ProcessedData where
  city : String
  main : Option String
  description : Option String
  temp : Option ℚ
  feels_like : Option ℚ
  dt : ℤ
  deriving DecidableEq

/-- Model of `process_weather_data(data, unit)` from `src/data_processing.py`.

`now` models the `datetime.now().timestamp()` fallback for a missing
`'dt'` key.  The leading guard returns `None` when `data` is empty or any
of `'main'`, `'weather'`, `'name'` is absent; `data['weather'][0]` on an
empty list raises `IndexError`, which the enclosing `try` turns into
`None`.  The final `all(key in processed_data ...)` check in the source
tests dictionary *key* membership and the keys `'city'`, `'temp'`, `'dt'`
are unconditionally set just above it, so that check never fails and the
model returns the record directly. -/
def process_weather_data (now : ℤ) (data : RawData) (unit : String) :
    Option ProcessedData :=
  match data.name, data.main, data.weather with
  | some nm, some mb, some ws =>
    match ws with
    | [] => none
    | w :: _ =>
      let temp := if unit = "fahrenheit"
        then mb.temp.map (fun t => t * 9 / 5 + 32) else mb.temp
      let feels := if unit = "fahrenheit"
        then mb.feels_like.map (fun t => t * 9 / 5 + 32) else mb.feels_like
      some { city := nm
             main := w.main
             description := w.description
             temp := temp.map round2
             feels_like := feels.map round2
             dt := data.dt.getD now }
  | _, _, _ => none

/-! ### Unit converter

`kelvin_to_celsius` and `kelvin_to_fahrenheit` are imported from
`src.data_processing` by `tests/test_data_processing.py` but their
definitions are absent from the repository's source tree. -/

/-- Modelled from the spec: `kelvin_to_celsius`, named by the repository's
tests but missing from `src/data_processing.py`; spec §4.1 gives
`kelvinToCelsius(k) = k - 273.15`. -/
def kelvin_to_celsius (k : ℚ) : ℚ := k - 273.15

/-- Modelled from the spec: `kelvin_to_fahrenheit`, named by the
repository's tests but missing from `src/data_processing.py`; spec §4.1
gives `kelvinToFahrenheit(k) = (k - 273.15) * 9/5 + 32`. -/
def kelvin_to_fahrenheit (k : ℚ) : ℚ := (k - 273.15) * 9 / 5 + 32

/-! ### Daily aggregator — `calculate_daily_summary` -/

/-- A stored observation as read by the aggregator (`WeatherData` rows:
only `dt`, `city`, `temp`, `main` are used).  `dt` is a Unix timestamp in
seconds. -/
structure WeatherPoint where
  dt : ℤ
  city : String
  temp : Option ℚ
  main : Option String
  deriving DecidableEq

/-- Calendar date of a timestamp (`point.dt.date()`), as a day number;
UTC is assumed, matching spec §4.4. -/
def dateOf (t : ℤ) : ℤ := Int.ediv t 86400

/-- One summary dictionary produced by `calculate_daily_summary`. -/
structure DailySummaryRec where
  date : ℤ
  city : String
  avg_temp : ℚ
  max_temp : ℚ
  min_temp : ℚ
  dominant_condition : String
  dominant_condition_count : ℕ
  total_observations : ℕ
  deriving DecidableEq

/-- Occurrence count of `c` in `l` (a `Counter` entry). -/
def countOf (l : List String) (c : String) : ℕ :=
  (l.filter (fun x => x = c)).length

/-- Distinct elements of a list in order of first occurrence — the key
order of a Python dict (or `Counter`) built by insertion. -/
def firstDedup {α : Type} [DecidableEq α] : List α → List α
  | [] => []
  | a :: as_ => a :: (firstDedup as_).filter (fun x => x ≠ a)

/-- Model of `Counter(l).most_common(1)[0]`: the (condition, count) pair with the
highest count; `most_common` sorts stably by descending count over the
counter's insertion (first-occurrence) order, so ties keep the
first-encountered condition.  Modelled as a left fold (`countStep`) that
replaces the best only on a strictly larger count.  The `[]` case is
unreachable in the source (guarded by `if not conditions: continue`). -/
def countStep (l : List String) (best : String × ℕ) (k : String) :
    String × ℕ :=
  if best.2 < countOf l k then (k, countOf l k) else best

/-- See `countStep`: the (condition, count) pair `most_common(1)[0]`. -/
def dominantPair (l : List String) : String × ℕ :=
  match firstDedup l with
  | [] => ("", 0)
  | k :: ks => ks.foldl (countStep l) (k, countOf l k)

/-- Python `max` over a non-empty list, here with the list split as
head and tail (`max(temps)`); `[]` never reaches it in the source. -/
def pyMax (t : ℚ) (ts : List ℚ) : ℚ := ts.foldl max t

/-- Python `min` over a non-empty list (`min(temps)`). -/
def pyMin (t : ℚ) (ts : List ℚ) : ℚ := ts.foldl min t

/-- Grouping key of an observation: `(point.dt.date(), point.city)`. -/
def pointKey (p : WeatherPoint) : ℤ × String := (dateOf p.dt, p.city)

/-- The list a key maps to in `daily_data`: the dict is built by
appending each point to its key's list in input order, so the group is
exactly the input filtered to that key. -/
def groupPoints (pts : List WeatherPoint) (k : ℤ × String) :
    List WeatherPoint :=
  pts.filter (fun p => pointKey p = k)

/-- The body of the summary loop for one `(date, city)` group: skips the
group (`continue`) when it has no non-null temperature or no non-null
condition, otherwise builds the summary dictionary. -/
def summarizeGroup (pts : List WeatherPoint) (k : ℤ × String) :
    Option DailySummaryRec :=
  match (groupPoints pts k).filterMap (fun p => p.temp),
        (groupPoints pts k).filterMap (fun p => p.main) with
  | [], _ => none
  | _, [] => none
  | t :: ts, c :: cs =>
    some { date := k.1
           city := k.2
           avg_temp :=
             round2 ((t :: ts).sum / (((t :: ts).length : ℕ) : ℚ))
           max_temp := round2 (pyMax t ts)
           min_temp := round2 (pyMin t ts)
           dominant_condition := (dominantPair (c :: cs)).1
           dominant_condition_count := (dominantPair (c :: cs)).2
           total_observations := (groupPoints pts k).length }

/-- Model of `calculate_daily_summary(data_points)` from `src/data_processing.py`:
`None` on empty input, else one summary per `(date, city)` key in
first-insertion order, skipping unusable groups; `None` again when every
group was skipped (`return summaries if summaries else None`). -/
def calculate_daily_summary (pts : List WeatherPoint) :
    Option (List DailySummaryRec) :=
  match pts with
  | [] => none
  | _ :: _ =>
    match (firstDedup (pts.map pointKey)).filterMap (summarizeGroup pts) with
    | [] => none
    | s1 :: rest => some (s1 :: rest)

/-! ### Summary storage — `src/database/db_operations.py`

The database table is modelled as a list of rows; `store_daily_summaries`
queries for an existing row with the same `(date, city, data_source)`
(`.first()` — the first match), overwrites every field of it when found,
and adds a new row otherwise.  SQLAlchemy autoflush makes rows added
earlier in the same call visible to later queries, which the sequential
fold reflects. -/

/-- A `DailySummary` table row (`models.py`), including the
`data_source` tag set by `store_daily_summaries`. -/
structure SummaryRow where
  date : ℤ
  city : String
  data_source : String
  avg_temp : ℚ
  max_temp : ℚ
  min_temp : ℚ
  dominant_condition : String
  dominant_condition_count : ℕ
  total_observations : ℕ
  deriving DecidableEq

/-- The row holding summary `s` tagged with source `src` (all fields of
the summary dict written via `DailySummary(**summary)` or `setattr`). -/
def toRow (src : String) (s : DailySummaryRec) : SummaryRow :=
  { date := s.date
    city := s.city
    data_source := src
    avg_temp := s.avg_temp
    max_temp := s.max_temp
    min_temp := s.min_temp
    dominant_condition := s.dominant_condition
    dominant_condition_count := s.dominant_condition_count
    total_observations := s.total_observations }

/-- The upsert key test: `date == summary['date'] and city == summary['city']
and data_source == db_manager.data_source`. -/
def sameKey (s : DailySummaryRec) (src : String) (r : SummaryRow) : Bool :=
  r.date = s.date && r.city = s.city && r.data_source = src

/-- Upsert of one summary: overwrite the first row with a matching
`(date, city, data_source)` key, or append a fresh row when none exists. -/
def upsertSummary (src : String) (s : DailySummaryRec) :
    List SummaryRow → List SummaryRow
  | [] => [toRow src s]
  | r :: rs =>
    if sameKey s src r then toRow src s :: rs
    else r :: upsertSummary src s rs

/-- Model of `store_daily_summaries(summaries)` over a database state: each
summary in order is upserted keyed by `(date, city, data_source)`. -/
def store_daily_summaries (src : String) (summaries : List DailySummaryRec)
    (db : List SummaryRow) : List SummaryRow :=
  summaries.foldl (fun d s => upsertSummary src s d) db

/-! ### Mock generator — `src/mock_data_generator.py`

`random.uniform(-2, 2)` (two independent draws per reading) and
`random.choices` are modelled by the oracle parameters `jT`, `jF` and
`pick`, indexed by the reading's position; `math.sin` and `math.pi` are
the oracle `sinF` and the parameter `piQ`, since float `sin` is not real
`sin` but always lies in `[-1, 1]`.  Timestamps are Unix seconds; the
loop `while current_date <= end_date: ...; current_date += 10 minutes`
emits one reading per city per 600-second tick. -/

/-- The fixed `weather_conditions` palette. -/
def weather_conditions : List (String × String) :=
  [("Clear", "clear sky"), ("Clouds", "scattered clouds"),
   ("Rain", "light rain"), ("Thunderstorm", "thunderstorm"),
   ("Snow", "light snow"), ("Mist", "mist")]

/-- Model of `city_temp_ranges.get(city, (15, 35))`: the per-city temperature band
with the default band for unconfigured cities. -/
def city_temp_ranges (city : String) : ℤ × ℤ :=
  if city = "Delhi" then (20, 45)
  else if city = "Mumbai" then (24, 35)
  else if city = "Chennai" then (24, 38)
  else if city = "Bangalore" then (18, 32)
  else if city = "Kolkata" then (22, 38)
  else if city = "Hyderabad" then (20, 40)
  else (15, 35)

/-- Number of loop iterations of `while current_date <= end_date` with a
600-second step: `floor((end - start) / 600) + 1` when `start ≤ end`. -/
def numTicks (startT endT : ℤ) : ℕ :=
  if startT ≤ endT then (endT - startT).toNat / 600 + 1 else 0

/-- One generated `data_point` dictionary: the diurnal sinusoid base
temperature plus jitter, feels-like derived from it by further jitter,
and a condition drawn from the palette (`random.choices` with
temperature-dependent weights — the weights shape the distribution only,
so the draw is the oracle `pick`).  `hour` is `current_date.hour` (UTC
model).  Both temperatures are stored through `round(x, 2)`. -/
def mkMockPoint (sinF : ℚ → ℚ) (piQ : ℚ) (jT jF : ℕ → ℚ) (pick : ℕ → ℕ)
    (idx : ℕ) (city : String) (ts : ℤ) : RawData :=
  let range := city_temp_ranges city
  let hour : ℤ := (Int.ediv ts 3600) % 24
  let daily_factor : ℚ := (sinF ((hour : ℚ) * piQ / 12 - piQ / 2) + 1) / 2
  let temp_range_size : ℚ := (range.2 : ℚ) - (range.1 : ℚ)
  let base_temp : ℚ := (range.1 : ℚ) + daily_factor * temp_range_size
  let temp : ℚ := base_temp + jT idx
  let feels_like : ℚ := temp + jF idx
  let w := weather_conditions.getD (pick idx % 6) ("Clear", "clear sky")
  { name := some city
    main := some { temp := some (round2 temp)
                   feels_like := some (round2 feels_like) }
    weather := some [{ main := some w.1, description := some w.2 }]
    dt := some ts }

/-- Model of `generate_mock_weather_data(cities, start_date, end_date)`: the tick
loop is outer, the city loop inner; reading number `t * |cities| + i`
belongs to tick `t` and city index `i` and carries timestamp
`start + 600 t`. -/
def generate_mock_weather_data (sinF : ℚ → ℚ) (piQ : ℚ) (jT jF : ℕ → ℚ)
    (pick : ℕ → ℕ) (cities : List String) (startT endT : ℤ) :
    List RawData :=
  (List.range (numTicks startT endT)).flatMap (fun t =>
    cities.enum.map (fun ci =>
      mkMockPoint sinF piQ jT jF pick (t * cities.length + ci.1) ci.2
        (startT + 600 * t)))

/-! ### Concrete inputs used in witnesses and counterexamples -/

/-- The spec's aggregator example: two same-city same-day points with
temperatures 25 and 27 and condition Clear. -/
def examplePoints : List WeatherPoint :=
  [⟨0, "Test City", some 25, some "Clear"⟩,
   ⟨600, "Test City", some 27, some "Clear"⟩]

/-- The summary the aggregator produces for `examplePoints`. -/
def exampleSummary : DailySummaryRec :=
  ⟨0, "Test City", 26, 27, 25, "Clear", 2, 2⟩

/-- A group with one null-temperature point among two observations. -/
def nullTempPoints : List WeatherPoint :=
  [⟨0, "Delhi", some 25, some "Clear"⟩, ⟨0, "Delhi", none, some "Clear"⟩]

/-- A group whose temperatures 1, 1, 2 have mean 4/3, which is not
representable at two decimal places. -/
def thirdMeanPoints : List WeatherPoint :=
  [⟨0, "Delhi", some 1, some "Clear"⟩,
   ⟨1, "Delhi", some 1, some "Clear"⟩,
   ⟨2, "Delhi", some 2, some "Clear"⟩]

/-- A non-empty input whose only group has no usable temperature. -/
def allNullPoints : List WeatherPoint := [⟨0, "Delhi", none, some "Clear"⟩]

/-- A non-empty input whose only group has a usable temperature but no
usable condition value. -/
def noCondPoints : List WeatherPoint := [⟨0, "Delhi", some 25, none⟩]

/-! ## Theorems -/

/-! ### Rounding lemmas -/

theorem rhe_intCast (n : ℤ) : rhe (n : ℚ) = n := by
  unfold rhe
  rw [Int.floor_intCast]
  norm_num

theorem floor_le_rhe (x : ℚ) : ⌊x⌋ ≤ rhe x := by
  unfold rhe
  split_ifs <;> omega

theorem rhe_le_floor_add_one (x : ℚ) : rhe x ≤ ⌊x⌋ + 1 := by
  unfold rhe
  split_ifs <;> omega

theorem rhe_mono {x y : ℚ} (h : x ≤ y) : rhe x ≤ rhe y := by
  rcases lt_or_eq_of_le (Int.floor_le_floor h) with hf | hf
  · calc rhe x ≤ ⌊x⌋ + 1 := rhe_le_floor_add_one x
      _ ≤ ⌊y⌋ := by omega
      _ ≤ rhe y := floor_le_rhe y
  · unfold rhe
    rw [← hf]
    split_ifs <;> first | omega | linarith

theorem round2_mono {x y : ℚ} (h : x ≤ y) : round2 x ≤ round2 y := by
  unfold round2
  have hm : rhe (100 * x) ≤ rhe (100 * y) := rhe_mono (by linarith)
  have hc : ((rhe (100 * x) : ℚ)) ≤ ((rhe (100 * y) : ℚ)) := by
    exact_mod_cast hm
  linarith

theorem round2_intCast (n : ℤ) : round2 (n : ℚ) = n := by
  unfold round2
  rw [show (100 : ℚ) * (n : ℚ) = ((100 * n : ℤ) : ℚ) by push_cast; ring,
    rhe_intCast]
  push_cast
  ring

/-! ### Alert detector theorems -/

theorem check_alert_counts_lt (counts : String → ℕ) (city : String) (temp : ℚ)
    (h : ∀ c, counts c < CONSECUTIVE_ALERTS) (c : String) :
    (check_alert counts city temp).1 c < CONSECUTIVE_ALERTS := by
  unfold check_alert
  by_cases h1 : ALERT_THRESHOLD < temp
  · by_cases h2 : CONSECUTIVE_ALERTS ≤ counts city + 1
    · simp only [if_pos h1, if_pos h2]
      by_cases hc : c = city
      · simp [hc, CONSECUTIVE_ALERTS]
      · simpa only [if_neg hc] using h c
    · simp only [if_pos h1, if_neg h2]
      by_cases hc : c = city
      · simp [hc]
        omega
      · simpa only [if_neg hc] using h c
  · simp only [if_neg h1]
    by_cases hc : c = city
    · simp [hc, CONSECUTIVE_ALERTS]
    · simpa only [if_neg hc] using h c

theorem run_alerts_counts_lt (calls : List (String × ℚ)) :
    ∀ counts : String → ℕ, (∀ c, counts c < CONSECUTIVE_ALERTS) →
      ∀ c, run_alerts counts calls c < CONSECUTIVE_ALERTS := by
  induction calls with
  | nil => intro counts h c; exact h c
  | cons p rest ih =>
    intro counts h c
    obtain ⟨cn, tn⟩ := p
    exact ih _ (fun c2 => check_alert_counts_lt counts cn tn h c2) c

/-- C10: starting from a fresh `AlertSystem`, after every sequence of
`check_alert` calls each per-city counter is below `CONSECUTIVE_ALERTS`
(0 ≤ holds in ℕ by type); with the default of 2 it is always 0 or 1. -/
theorem c10_alert_counter_invariant (calls : List (String × ℚ)) (c : String) :
    run_alerts initial_alert_count calls c < CONSECUTIVE_ALERTS ∧
    (run_alerts initial_alert_count calls c = 0 ∨
      run_alerts initial_alert_count calls c = 1) := by
  have h : run_alerts initial_alert_count calls c < CONSECUTIVE_ALERTS :=
    run_alerts_counts_lt calls initial_alert_count
      (fun _ => by simp [initial_alert_count, CONSECUTIVE_ALERTS]) c
  have h2 : run_alerts initial_alert_count calls c < 2 := h
  exact ⟨h, by omega⟩

/-- C1: evaluation of `AlertSystem.check_alert` at the claim's scenario
(threshold 30, consecutive count 2, readings 31, 31 for one city).  The
counter behaviour matches the claim: no trigger on the first breach,
trigger on the second, counter 0 afterwards, and a 25-degree reading after
a single breach resets the counter so two fresh breaches are again needed.
However, the Python `check_alert` returns `None` on every path — the
`true` here records the `_trigger_alert` print, not a returned event — so
the claim's (and the repository's own test's) expectation that the second
call *returns* the event `{city, 31.0}` fails on the code; the test also
calls a `set_threshold` method that `AlertSystem` does not define. -/
theorem c1_alert_trigger_eval :
    (check_alert initial_alert_count "Test City" 31).2 = false
    ∧ (check_alert initial_alert_count "Test City" 31).1 "Test City" = 1
    ∧ (check_alert (check_alert initial_alert_count "Test City" 31).1
        "Test City" 31).2 = true
    ∧ (check_alert (check_alert initial_alert_count "Test City" 31).1
        "Test City" 31).1 "Test City" = 0
    ∧ (check_alert (check_alert initial_alert_count "Test City" 31).1
        "Test City" 25).1 "Test City" = 0
    ∧ (check_alert (check_alert (check_alert initial_alert_count
        "Test City" 31).1 "Test City" 25).1 "Test City" 31).2 = false
    ∧ (check_alert (check_alert (check_alert (check_alert
        initial_alert_count "Test City" 31).1 "Test City" 25).1
        "Test City" 31).1 "Test City" 31).2 = true := by
  decide

/-! ### Normalizer theorems -/

/-- C2: evaluation of `process_weather_data` at the claim's inputs.  The
empty reading, a reading missing the city name, one missing the
`'weather'` key and one with an empty condition list all yield `None` as
claimed.  But a reading whose `'main'` block lacks the temperature is
*not* rejected: the final `all(key in processed_data ...)` check in the
source tests key membership on keys that were just unconditionally set,
so the function returns a record with `temp = None` instead of `None`,
contradicting its own docstring ("None if processing fails") and the
required-key list `['city', 'temp', 'dt']` in that check. -/
theorem c2_normalizer_missing_field_eval :
    process_weather_data 0 ⟨none, none, none, none⟩ "celsius" = none
    ∧ process_weather_data 0 ⟨none, some ⟨some 25, none⟩,
        some [⟨some "Clear", some "clear sky"⟩], some 0⟩ "celsius" = none
    ∧ process_weather_data 0 ⟨some "A", some ⟨some 25, none⟩,
        none, some 0⟩ "celsius" = none
    ∧ process_weather_data 0 ⟨some "A", some ⟨some 25, none⟩,
        some [], some 0⟩ "celsius" = none
    ∧ process_weather_data 0 ⟨some "A", some ⟨none, none⟩,
        some [⟨some "Clear", some "clear sky"⟩], some 0⟩ "celsius"
      = some ⟨"A", some "Clear", some "clear sky", none, none, 0⟩ := by
  refine ⟨rfl, rfl, rfl, rfl, ?_⟩
  simp [process_weather_data]

/-- C5: the unit converter satisfies `kelvinToCelsius(k) = k - 273.15`
and `kelvinToFahrenheit(k) = (k - 273.15) * 9/5 + 32`, the composition
identity, and the Fahrenheit value the Normalizer produces from a raw
Celsius temperature `kelvinToCelsius(k)` is exactly
`kelvinToFahrenheit(k)` before rounding (the stored field is its
2-decimal rounding). -/
theorem c5_unit_conversion (k : ℚ) (now : ℤ) :
    kelvin_to_celsius k = k - 273.15
    ∧ kelvin_to_fahrenheit k = (k - 273.15) * 9 / 5 + 32
    ∧ kelvin_to_fahrenheit k = kelvin_to_celsius k * 9 / 5 + 32
    ∧ process_weather_data now
        ⟨some "A", some ⟨some (kelvin_to_celsius k), none⟩,
         some [⟨some "Clear", none⟩], some 0⟩ "fahrenheit"
      = some ⟨"A", some "Clear", none,
          some (round2 (kelvin_to_fahrenheit k)), none, 0⟩ := by
  refine ⟨rfl, rfl, rfl, ?_⟩
  simp [process_weather_data, kelvin_to_fahrenheit, kelvin_to_celsius]

/-! ### List fold lemmas for `max`, `min` and sums -/

theorem foldl_max_init_le (ts : List ℚ) : ∀ t : ℚ, t ≤ ts.foldl max t := by
  induction ts with
  | nil => intro t; simp
  | cons u ts ih =>
    intro t
    calc t ≤ max t u := le_max_left t u
      _ ≤ ts.foldl max (max t u) := ih (max t u)

theorem le_foldl_max (ts : List ℚ) :
    ∀ (t x : ℚ), x ∈ ts → x ≤ ts.foldl max t := by
  induction ts with
  | nil => intro t x hx; simp at hx
  | cons u ts ih =>
    intro t x hx
    rcases List.mem_cons.mp hx with rfl | hx
    · calc x ≤ max t x := le_max_right t x
        _ ≤ ts.foldl max (max t x) := foldl_max_init_le ts (max t x)
    · exact ih (max t u) x hx

theorem foldl_max_mem (ts : List ℚ) : ∀ t : ℚ, ts.foldl max t ∈ t :: ts := by
  induction ts with
  | nil => intro t; simp
  | cons u ts ih =>
    intro t
    rw [List.foldl_cons]
    rcases List.mem_cons.mp (ih (max t u)) with h1 | h2
    · rw [h1]
      rcases max_choice t u with hm | hm <;> rw [hm] <;> simp
    · simp [List.mem_cons_of_mem, h2]

theorem foldl_min_mem (ts : List ℚ) : ∀ t : ℚ, ts.foldl min t ∈ t :: ts := by
  induction ts with
  | nil => intro t; simp
  | cons u ts ih =>
    intro t
    rw [List.foldl_cons]
    rcases List.mem_cons.mp (ih (min t u)) with h1 | h2
    · rw [h1]
      rcases min_choice t u with hm | hm <;> rw [hm] <;> simp
    · simp [List.mem_cons_of_mem, h2]

theorem le_foldl_min_init (ts : List ℚ) : ∀ t : ℚ, ts.foldl min t ≤ t := by
  induction ts with
  | nil => intro t; simp
  | cons u ts ih =>
    intro t
    calc ts.foldl min (min t u) ≤ min t u := ih (min t u)
      _ ≤ t := min_le_left t u

theorem foldl_min_le (ts : List ℚ) :
    ∀ (t x : ℚ), x ∈ ts → ts.foldl min t ≤ x := by
  induction ts with
  | nil => intro t x hx; simp at hx
  | cons u ts ih =>
    intro t x hx
    rcases List.mem_cons.mp hx with rfl | hx
    · calc ts.foldl min (min t x) ≤ min t x := le_foldl_min_init ts (min t x)
        _ ≤ x := min_le_right t x
    · exact ih (min t u) x hx

theorem sum_le_length_mul (l : List ℚ) (M : ℚ) (h : ∀ x ∈ l, x ≤ M) :
    l.sum ≤ (l.length : ℚ) * M := by
  induction l with
  | nil => simp
  | cons x xs ih =>
    have hx : x ≤ M := h x (List.mem_cons_self x xs)
    have hxs : xs.sum ≤ (xs.length : ℚ) * M :=
      ih (fun y hy => h y (List.mem_cons_of_mem x hy))
    simp only [List.sum_cons, List.length_cons]
    push_cast
    linarith

theorem length_mul_le_sum (l : List ℚ) (m : ℚ) (h : ∀ x ∈ l, m ≤ x) :
    (l.length : ℚ) * m ≤ l.sum := by
  induction l with
  | nil => simp
  | cons x xs ih =>
    have hx : m ≤ x := h x (List.mem_cons_self x xs)
    have hxs : (xs.length : ℚ) * m ≤ xs.sum :=
      ih (fun y hy => h y (List.mem_cons_of_mem x hy))
    simp only [List.sum_cons, List.length_cons]
    push_cast
    linarith

theorem mean_le_pyMax (t : ℚ) (ts : List ℚ) :
    (t :: ts).sum / ((t :: ts).length : ℚ) ≤ pyMax t ts := by
  have hall : ∀ x ∈ t :: ts, x ≤ pyMax t ts := by
    intro x hx
    rcases List.mem_cons.mp hx with rfl | hx
    · exact foldl_max_init_le ts x
    · exact le_foldl_max ts t x hx
  have hsum := sum_le_length_mul (t :: ts) (pyMax t ts) hall
  have hlen : (0 : ℚ) < ((t :: ts).length : ℚ) := by
    simp only [List.length_cons]
    push_cast
    positivity
  rw [div_le_iff hlen]
  linarith [hsum]

theorem pyMin_le_mean (t : ℚ) (ts : List ℚ) :
    pyMin t ts ≤ (t :: ts).sum / ((t :: ts).length : ℚ) := by
  have hall : ∀ x ∈ t :: ts, pyMin t ts ≤ x := by
    intro x hx
    rcases List.mem_cons.mp hx with rfl | hx
    · exact le_foldl_min_init ts x
    · exact foldl_min_le ts t x hx
  have hsum := length_mul_le_sum (t :: ts) (pyMin t ts) hall
  have hlen : (0 : ℚ) < ((t :: ts).length : ℚ) := by
    simp only [List.length_cons]
    push_cast
    positivity
  rw [le_div_iff hlen]
  linarith [hsum]

/-! ### Dominant-condition lemmas -/

theorem countOf_pos (l : List String) (c : String) (h : c ∈ l) :
    1 ≤ countOf l c := by
  unfold countOf
  have : c ∈ l.filter (fun x => x = c) := by
    rw [List.mem_filter]
    exact ⟨h, by simp⟩
  calc 1 = [c].length := rfl
    _ ≤ (l.filter (fun x => x = c)).length :=
        List.length_pos.mpr (List.ne_nil_of_mem this)

theorem countOf_le_length (l : List String) (c : String) :
    countOf l c ≤ l.length := List.length_filter_le _ l

theorem countFold_spec (l : List String) (ks : List String) :
    ∀ b : String × ℕ, b.2 = countOf l b.1 →
      (ks.foldl (countStep l) b).2
          = max b.2 ((ks.map (countOf l)).foldr max 0)
      ∧ (ks.foldl (countStep l) b).2
          = countOf l (ks.foldl (countStep l) b).1
      ∧ (((ks.map (countOf l)).foldr max 0) ≤ b.2 →
          (ks.foldl (countStep l) b).1 = b.1)
      ∧ (b.2 < ((ks.map (countOf l)).foldr max 0) →
          ks.find? (fun k => countOf l k == (ks.foldl (countStep l) b).2)
            = some (ks.foldl (countStep l) b).1) := by
  induction ks with
  | nil =>
    intro b hb
    refine ⟨by simp, hb, fun _ => rfl, fun h => by simp at h⟩
  | cons k ks ih =>
    intro b hb
    rw [List.foldl_cons]
    by_cases hk : b.2 < countOf l k
    · have hstep : countStep l b k = (k, countOf l k) := by
        simp [countStep, hk]
      rw [hstep]
      obtain ⟨H1, H2, H3, H4⟩ := ih (k, countOf l k) rfl
      refine ⟨?_, H2, ?_, ?_⟩
      · rw [H1]
        simp only [List.map_cons, List.foldr_cons]
        omega
      · intro hm
        simp only [List.map_cons, List.foldr_cons] at hm
        omega
      · intro _
        by_cases hm : (ks.map (countOf l)).foldr max 0 ≤ countOf l k
        · have hr1 := H3 hm
          have hr2 : (ks.foldl (countStep l) (k, countOf l k)).2
              = countOf l k := by rw [H1]; omega
          rw [List.find?_cons_of_pos _ (by rw [hr2]; simp), hr1]
        · push_neg at hm
          have hr2 : (ks.foldl (countStep l) (k, countOf l k)).2
              = (ks.map (countOf l)).foldr max 0 := by rw [H1]; omega
          rw [List.find?_cons_of_neg _ (by rw [hr2]; simp; omega)]
          exact H4 (by omega)
    · have hstep : countStep l b k = b := by
        simp [countStep, hk]
      rw [hstep]
      push_neg at hk
      obtain ⟨H1, H2, H3, H4⟩ := ih b hb
      refine ⟨?_, H2, ?_, ?_⟩
      · rw [H1]
        simp only [List.map_cons, List.foldr_cons]
        omega
      · intro hm
        simp only [List.map_cons, List.foldr_cons] at hm
        exact H3 (by omega)
      · intro hm
        simp only [List.map_cons, List.foldr_cons] at hm
        have hm2 : b.2 < (ks.map (countOf l)).foldr max 0 := by omega
        have hr2 : (ks.foldl (countStep l) b).2
            = (ks.map (countOf l)).foldr max 0 := by rw [H1]; omega
        rw [List.find?_cons_of_neg _ (by rw [hr2]; simp; omega)]
        exact H4 hm2

theorem firstDedup_of_cons {α : Type} [DecidableEq α] (a : α)
    (as_ : List α) :
    firstDedup (a :: as_)
      = a :: (firstDedup as_).filter (fun x => x ≠ a) := rfl

theorem mem_firstDedup {α : Type} [DecidableEq α] (l : List α) (x : α) :
    x ∈ firstDedup l ↔ x ∈ l := by
  induction l with
  | nil => simp [firstDedup]
  | cons a as_ ih =>
    rw [firstDedup_of_cons]
    by_cases hx : x = a
    · simp [hx]
    · simp only [List.mem_cons, List.mem_filter, ih]
      constructor
      · rintro (rfl | ⟨h, _⟩)
        · exact Or.inl rfl
        · exact Or.inr h
      · rintro (rfl | h)
        · exact Or.inl rfl
        · exact Or.inr ⟨h, by simpa using hx⟩

theorem le_foldr_max_of_mem (g : String → ℕ) (ks : List String) :
    ∀ x ∈ ks, g x ≤ (ks.map g).foldr max 0 := by
  induction ks with
  | nil => intro x hx; simp at hx
  | cons k ks ih =>
    intro x hx
    simp only [List.map_cons, List.foldr_cons]
    rcases List.mem_cons.mp hx with rfl | hx
    · omega
    · have := ih x hx
      omega

theorem dominantPair_spec (l : List String) (hl : l ≠ []) :
    (dominantPair l).2
        = ((firstDedup l).map (countOf l)).foldr max 0
    ∧ (dominantPair l).2 = countOf l (dominantPair l).1
    ∧ (firstDedup l).find? (fun k => countOf l k == (dominantPair l).2)
        = some (dominantPair l).1 := by
  obtain ⟨a, as_, rfl⟩ := List.exists_cons_of_ne_nil hl
  rw [show dominantPair (a :: as_)
      = ((firstDedup as_).filter (fun x => x ≠ a)).foldl
          (countStep (a :: as_)) (a, countOf (a :: as_) a) from rfl]
  obtain ⟨H1, H2, H3, H4⟩ :=
    countFold_spec (a :: as_) ((firstDedup as_).filter (fun x => x ≠ a))
      (a, countOf (a :: as_) a) rfl
  rw [firstDedup_of_cons]
  refine ⟨?_, H2, ?_⟩
  · rw [H1, List.map_cons, List.foldr_cons]
  · by_cases hm : (((firstDedup as_).filter (fun x => x ≠ a)).map
        (countOf (a :: as_))).foldr max 0 ≤ countOf (a :: as_) a
    · have hr1 := H3 hm
      have hr2 : (((firstDedup as_).filter (fun x => x ≠ a)).foldl
          (countStep (a :: as_)) (a, countOf (a :: as_) a)).2
          = countOf (a :: as_) a := by rw [H1]; omega
      rw [List.find?_cons_of_pos _ (by rw [hr2]; simp), hr1]
    · push_neg at hm
      have hr2 : (((firstDedup as_).filter (fun x => x ≠ a)).foldl
          (countStep (a :: as_)) (a, countOf (a :: as_) a)).2
          = (((firstDedup as_).filter (fun x => x ≠ a)).map
              (countOf (a :: as_))).foldr max 0 := by rw [H1]; omega
      rw [List.find?_cons_of_neg _ (by rw [hr2]; simp only [beq_iff_eq]; omega)]
      exact H4 hm

theorem dominantPair_count_bounds (l : List String) (hl : l ≠ []) :
    1 ≤ (dominantPair l).2 ∧ (dominantPair l).2 ≤ l.length := by
  obtain ⟨H1, H2, _⟩ := dominantPair_spec l hl
  constructor
  · obtain ⟨a, as_, rfl⟩ := List.exists_cons_of_ne_nil hl
    have ha : 1 ≤ countOf (a :: as_) a :=
      countOf_pos _ a (List.mem_cons_self a as_)
    rw [H1, firstDedup_of_cons]
    simp only [List.map_cons, List.foldr_cons]
    omega
  · rw [H2]
    exact countOf_le_length l _

/-! ### Structure of the aggregator output -/

theorem summarizeGroup_fields (pts : List WeatherPoint) (k : ℤ × String)
    (s : DailySummaryRec) (h : summarizeGroup pts k = some s) :
    ∃ t ts c cs,
      (groupPoints pts k).filterMap (fun p => p.temp) = t :: ts
      ∧ (groupPoints pts k).filterMap (fun p => p.main) = c :: cs
      ∧ s = { date := k.1
              city := k.2
              avg_temp :=
                round2 ((t :: ts).sum / (((t :: ts).length : ℕ) : ℚ))
              max_temp := round2 (pyMax t ts)
              min_temp := round2 (pyMin t ts)
              dominant_condition := (dominantPair (c :: cs)).1
              dominant_condition_count := (dominantPair (c :: cs)).2
              total_observations := (groupPoints pts k).length } := by
  cases h1 : (groupPoints pts k).filterMap (fun p => p.temp) with
  | nil =>
    unfold summarizeGroup at h
    rw [h1] at h
    simp at h
  | cons t ts =>
    cases h2 : (groupPoints pts k).filterMap (fun p => p.main) with
    | nil =>
      unfold summarizeGroup at h
      rw [h1, h2] at h
      simp at h
    | cons c cs =>
      unfold summarizeGroup at h
      rw [h1, h2] at h
      simp only [Option.some.injEq] at h
      exact ⟨t, ts, c, cs, rfl, rfl, h.symm⟩

theorem calculate_eq_some_mem (pts : List WeatherPoint)
    (l : List DailySummaryRec) (s : DailySummaryRec)
    (hl : calculate_daily_summary pts = some l) (hs : s ∈ l) :
    ∃ k, k ∈ firstDedup (pts.map pointKey)
      ∧ summarizeGroup pts k = some s := by
  cases pts with
  | nil => simp [calculate_daily_summary] at hl
  | cons p ps =>
    unfold calculate_daily_summary at hl
    split at hl
    · simp at hl
    · split at hl
      · simp at hl
      · rename_i s1 rest heq
        injection hl with hl
        subst hl
        exact List.mem_filterMap.mp (by rw [heq]; exact hs)

theorem calculate_of_summarize (pts : List WeatherPoint) (k : ℤ × String)
    (s : DailySummaryRec) (hk : k ∈ firstDedup (pts.map pointKey))
    (h : summarizeGroup pts k = some s) :
    ∃ l, calculate_daily_summary pts = some l ∧ s ∈ l := by
  have hmem : s ∈ (firstDedup (pts.map pointKey)).filterMap
      (summarizeGroup pts) :=
    List.mem_filterMap.mpr ⟨k, hk, h⟩
  cases pts with
  | nil => simp [firstDedup] at hk
  | cons p ps =>
    cases hsum : (firstDedup ((p :: ps).map pointKey)).filterMap
        (summarizeGroup (p :: ps)) with
    | nil =>
      rw [hsum] at hmem
      simp at hmem
    | cons s1 rest =>
      refine ⟨s1 :: rest, ?_, by rw [hsum] at hmem; exact hmem⟩
      unfold calculate_daily_summary
      rw [hsum]

/-- C9: every summary the aggregator outputs satisfies
`min_temp ≤ avg_temp ≤ max_temp`, has at least one observation, and its
dominant-condition count lies between 1 and the observation total. -/
theorem c9_summary_invariants (pts : List WeatherPoint)
    (l : List DailySummaryRec) (s : DailySummaryRec)
    (hl : calculate_daily_summary pts = some l) (hs : s ∈ l) :
    s.min_temp ≤ s.avg_temp ∧ s.avg_temp ≤ s.max_temp
    ∧ 1 ≤ s.total_observations
    ∧ 1 ≤ s.dominant_condition_count
    ∧ s.dominant_condition_count ≤ s.total_observations := by
  obtain ⟨k, _, hsum⟩ := calculate_eq_some_mem pts l s hl hs
  obtain ⟨t, ts, c, cs, h1, h2, rfl⟩ := summarizeGroup_fields pts k s hsum
  have hgrp : groupPoints pts k ≠ [] := by
    intro hg
    rw [hg] at h1
    simp at h1
  have hdom := dominantPair_count_bounds (c :: cs) (by simp)
  refine ⟨?_, ?_, ?_, ?_, ?_⟩
  · exact round2_mono (pyMin_le_mean t ts)
  · exact round2_mono (mean_le_pyMax t ts)
  · simpa using List.length_pos.mpr hgrp
  · exact hdom.1
  · calc (dominantPair (c :: cs)).2 ≤ (c :: cs).length := hdom.2
      _ = ((groupPoints pts k).filterMap (fun p => p.main)).length := by
          rw [h2]
      _ ≤ (groupPoints pts k).length := List.length_filterMap_le _ _

/-- Witness for C9 at the spec's two-point example. -/
theorem c9_summary_invariants_witness :
    calculate_daily_summary examplePoints = some [exampleSummary]
    ∧ exampleSummary ∈ [exampleSummary]
    ∧ (exampleSummary.min_temp ≤ exampleSummary.avg_temp
       ∧ exampleSummary.avg_temp ≤ exampleSummary.max_temp
       ∧ 1 ≤ exampleSummary.total_observations
       ∧ 1 ≤ exampleSummary.dominant_condition_count
       ∧ exampleSummary.dominant_condition_count
           ≤ exampleSummary.total_observations) := by
  have h1 : calculate_daily_summary examplePoints = some [exampleSummary] := by
    simp +decide [calculate_daily_summary, summarizeGroup, groupPoints,
      pointKey, dateOf, firstDedup, dominantPair, countStep, countOf,
      pyMax, pyMin, examplePoints, exampleSummary, List.filterMap_cons,
      List.filter_cons, List.foldl_cons, List.foldl_nil]
    norm_num [round2, rhe]
  exact ⟨h1, by simp,
    c9_summary_invariants examplePoints [exampleSummary] exampleSummary
      h1 (by simp)⟩

/-- Counterexample for C3 as stated: in a group of two observations,
one with temperature 25 and one with a null temperature, only one point
is non-discarded, yet `total_observations` in the produced summary is 2
(`len(points)` counts every point of the group, null temperature
included). -/
theorem c3_total_observations_counterexample :
    calculate_daily_summary nullTempPoints
      = some [⟨0, "Delhi", 25, 25, 25, "Clear", 2, 2⟩]
    ∧ (nullTempPoints.filterMap (fun p => p.temp)).length = 1
    ∧ (2 : ℕ) ≠ 1 := by
  refine ⟨?_, by simp [nullTempPoints], by simp⟩
  simp +decide [calculate_daily_summary, summarizeGroup, groupPoints,
    pointKey, dateOf, firstDedup, dominantPair, countStep, countOf,
    pyMax, pyMin, nullTempPoints, List.filterMap_cons, List.filter_cons,
    List.foldl_cons, List.foldl_nil]
  norm_num [round2, rhe]

/-- C3 amended: `total_observations` counts all observations of the
`(date, city)` group in the input — including those whose temperature is
null — not just the non-discarded ones. -/
theorem c3_total_observations_amended (pts : List WeatherPoint)
    (l : List DailySummaryRec) (s : DailySummaryRec)
    (hl : calculate_daily_summary pts = some l) (hs : s ∈ l) :
    s.total_observations
      = pts.countP (fun p => pointKey p = (s.date, s.city)) := by
  obtain ⟨k, _, hsum⟩ := calculate_eq_some_mem pts l s hl hs
  obtain ⟨t, ts, c, cs, _, _, rfl⟩ := summarizeGroup_fields pts k s hsum
  rw [List.countP_eq_length_filter]
  rfl

/-- Witness for the amended C3 at the null-temperature group. -/
theorem c3_total_observations_amended_witness :
    calculate_daily_summary nullTempPoints
      = some [⟨0, "Delhi", 25, 25, 25, "Clear", 2, 2⟩]
    ∧ (⟨0, "Delhi", 25, 25, 25, "Clear", 2, 2⟩ : DailySummaryRec)
        ∈ [(⟨0, "Delhi", 25, 25, 25, "Clear", 2, 2⟩ : DailySummaryRec)]
    ∧ (⟨0, "Delhi", 25, 25, 25, "Clear", 2, 2⟩
        : DailySummaryRec).total_observations
      = nullTempPoints.countP (fun p => pointKey p = (0, "Delhi")) := by
  have h1 : calculate_daily_summary nullTempPoints
      = some [⟨0, "Delhi", 25, 25, 25, "Clear", 2, 2⟩] := by
    simp +decide [calculate_daily_summary, summarizeGroup, groupPoints,
      pointKey, dateOf, firstDedup, dominantPair, countStep, countOf,
      pyMax, pyMin, nullTempPoints, List.filterMap_cons, List.filter_cons,
      List.foldl_cons, List.foldl_nil]
    norm_num [round2, rhe]
  exact ⟨h1, by simp,
    c3_total_observations_amended nullTempPoints _ _ h1 (by simp)⟩

/-- Counterexample for C4 as stated: in the group with temperatures
1, 1, 2 the arithmetic mean of the non-null temperatures is 4/3, but the
summary's `avg_temp` is its two-decimal rounding 133/100 ≠ 4/3, because
the source computes `round(sum(temps)/len(temps), 2)`. -/
theorem c4_avg_mean_counterexample :
    calculate_daily_summary thirdMeanPoints
      = some [⟨0, "Delhi", 133/100, 2, 1, "Clear", 3, 3⟩]
    ∧ (thirdMeanPoints.filterMap (fun p => p.temp)).sum
        / ((thirdMeanPoints.filterMap (fun p => p.temp)).length : ℚ) = 4/3
    ∧ (133/100 : ℚ) ≠ 4/3 := by
  refine ⟨?_, ?_, by norm_num⟩
  · simp +decide [calculate_daily_summary, summarizeGroup, groupPoints,
      pointKey, dateOf, firstDedup, dominantPair, countStep, countOf,
      pyMax, pyMin, thirdMeanPoints, List.filterMap_cons, List.filter_cons,
      List.foldl_cons, List.foldl_nil]
    norm_num [round2, rhe]
  · simp [thirdMeanPoints, List.filterMap_cons]
    norm_num

/-- C4 amended: for every summary the aggregator outputs, `avg_temp` is
the arithmetic mean of the group's non-null temperatures rounded to two
decimal places (the rounding is the only deviation from the claim);
`max_temp` and `min_temp` are the two-decimal roundings of their maximum
and minimum (a no-op for temperatures already given to two decimals);
the dominant-condition count is the occurrence count of the dominant
condition, no condition in the group occurs more often, and the dominant
condition is the first condition in first-encountered order whose count
attains that maximum. -/
theorem c4_summary_statistics_amended (pts : List WeatherPoint)
    (l : List DailySummaryRec) (s : DailySummaryRec)
    (hl : calculate_daily_summary pts = some l) (hs : s ∈ l) :
    ∃ temps conds,
      temps = (pts.filter (fun p => pointKey p = (s.date, s.city))).filterMap
          (fun p => p.temp)
      ∧ conds = (pts.filter (fun p => pointKey p = (s.date, s.city))).filterMap
          (fun p => p.main)
      ∧ s.avg_temp = round2 (temps.sum / (temps.length : ℚ))
      ∧ (∃ M ∈ temps, (∀ x ∈ temps, x ≤ M) ∧ s.max_temp = round2 M)
      ∧ (∃ m ∈ temps, (∀ x ∈ temps, m ≤ x) ∧ s.min_temp = round2 m)
      ∧ s.dominant_condition_count = countOf conds s.dominant_condition
      ∧ (∀ x ∈ conds, countOf conds x ≤ s.dominant_condition_count)
      ∧ (firstDedup conds).find?
          (fun x => countOf conds x == s.dominant_condition_count)
        = some s.dominant_condition := by
  obtain ⟨k, _, hsum⟩ := calculate_eq_some_mem pts l s hl hs
  obtain ⟨t, ts, c, cs, h1, h2, rfl⟩ := summarizeGroup_fields pts k s hsum
  obtain ⟨D1, D2, D3⟩ := dominantPair_spec (c :: cs) (by simp)
  refine ⟨t :: ts, c :: cs, h1.symm, h2.symm, rfl, ?_, ?_, D2, ?_, D3⟩
  · refine ⟨pyMax t ts, ?_, ?_, rfl⟩
    · exact foldl_max_mem ts t
    · intro x hx
      rcases List.mem_cons.mp hx with rfl | hx
      · exact foldl_max_init_le ts x
      · exact le_foldl_max ts t x hx
  · refine ⟨pyMin t ts, ?_, ?_, rfl⟩
    · exact foldl_min_mem ts t
    · intro x hx
      rcases List.mem_cons.mp hx with rfl | hx
      · exact le_foldl_min_init ts x
      · exact foldl_min_le ts t x hx
  · intro x hx
    rw [D1]
    exact le_foldr_max_of_mem (countOf (c :: cs)) (firstDedup (c :: cs)) x
      ((mem_firstDedup (c :: cs) x).mpr hx)

/-- Witness for the amended C4 at the spec's example: two points with
temperatures 25 and 27 and condition Clear yield avg 26, max 27, min 25,
dominant condition Clear with count 2 and 2 observations. -/
theorem c4_summary_statistics_amended_witness :
    calculate_daily_summary examplePoints = some [exampleSummary]
    ∧ exampleSummary.avg_temp = 26
    ∧ exampleSummary.max_temp = 27
    ∧ exampleSummary.min_temp = 25
    ∧ exampleSummary.dominant_condition = "Clear"
    ∧ exampleSummary.total_observations = 2
    ∧ (∃ temps conds,
        temps = (examplePoints.filter (fun p =>
            pointKey p = (exampleSummary.date, exampleSummary.city))).filterMap
            (fun p => p.temp)
        ∧ conds = (examplePoints.filter (fun p =>
            pointKey p = (exampleSummary.date, exampleSummary.city))).filterMap
            (fun p => p.main)
        ∧ exampleSummary.avg_temp = round2 (temps.sum / (temps.length : ℚ))
        ∧ (∃ M ∈ temps, (∀ x ∈ temps, x ≤ M)
            ∧ exampleSummary.max_temp = round2 M)
        ∧ (∃ m ∈ temps, (∀ x ∈ temps, m ≤ x)
            ∧ exampleSummary.min_temp = round2 m)
        ∧ exampleSummary.dominant_condition_count
            = countOf conds exampleSummary.dominant_condition
        ∧ (∀ x ∈ conds, countOf conds x
            ≤ exampleSummary.dominant_condition_count)
        ∧ (firstDedup conds).find? (fun x =>
            countOf conds x == exampleSummary.dominant_condition_count)
          = some exampleSummary.dominant_condition) := by
  have h1 : calculate_daily_summary examplePoints = some [exampleSummary] := by
    simp +decide [calculate_daily_summary, summarizeGroup, groupPoints,
      pointKey, dateOf, firstDedup, dominantPair, countStep, countOf,
      pyMax, pyMin, examplePoints, exampleSummary, List.filterMap_cons,
      List.filter_cons, List.foldl_cons, List.foldl_nil]
    norm_num [round2, rhe]
  exact ⟨h1, rfl, rfl, rfl, rfl, rfl,
    c4_summary_statistics_amended examplePoints [exampleSummary]
      exampleSummary h1 (by simp)⟩

/-- C7: the aggregator returns the empty result (`None`, the source's
no-summary value) for an empty collection and for any input whose
groups all lack usable temperature values or usable condition values —
each `(date, city)` group has no non-null temperature or no non-null
condition — rather than raising; in particular it does so when every
observation's temperature is null.  A single-point group is valid,
yielding a summary with avg = max = min = that point's temperature
(stated for temperatures already given to two decimal places, which is
what the Normalizer produces) and one observation. -/
theorem c7_empty_and_minimal_inputs :
    calculate_daily_summary [] = none
    ∧ (∀ pts : List WeatherPoint,
        (∀ k ∈ firstDedup (pts.map pointKey),
          (groupPoints pts k).filterMap (fun p => p.temp) = []
          ∨ (groupPoints pts k).filterMap (fun p => p.main) = []) →
        calculate_daily_summary pts = none)
    ∧ (∀ pts : List WeatherPoint, (∀ p ∈ pts, p.temp = none) →
        calculate_daily_summary pts = none)
    ∧ (∀ (d : ℤ) (city : String) (t : ℚ) (cond : String),
        round2 t = t →
        calculate_daily_summary [⟨d, city, some t, some cond⟩]
          = some [⟨dateOf d, city, t, t, t, cond, 1, 1⟩]) := by
  have hgen : ∀ pts : List WeatherPoint,
      (∀ k ∈ firstDedup (pts.map pointKey),
        (groupPoints pts k).filterMap (fun p => p.temp) = []
        ∨ (groupPoints pts k).filterMap (fun p => p.main) = []) →
      calculate_daily_summary pts = none := by
    intro pts h
    have hall : ∀ k ∈ firstDedup (pts.map pointKey),
        summarizeGroup pts k = none := by
      intro k hk
      rcases h k hk with htemps | hconds
      · unfold summarizeGroup
        rw [htemps]
        cases (groupPoints pts k).filterMap (fun p => p.main) <;> rfl
      · unfold summarizeGroup
        rw [hconds]
        cases (groupPoints pts k).filterMap (fun p => p.temp) <;> rfl
    cases pts with
    | nil => rfl
    | cons p ps =>
      unfold calculate_daily_summary
      rw [List.filterMap_eq_nil_iff.mpr hall]
  refine ⟨rfl, hgen, ?_, ?_⟩
  · intro pts h
    refine hgen pts (fun k _ => Or.inl ?_)
    exact List.filterMap_eq_nil_iff.mpr
      (fun p hp => h p (List.mem_filter.mp hp).1)
  · intro d city t cond hrt
    simp [calculate_daily_summary, summarizeGroup, groupPoints, pointKey,
      firstDedup, dominantPair, countStep, countOf, pyMax, pyMin,
      List.filterMap_cons, List.filter_cons, List.foldl_cons,
      List.foldl_nil, hrt]

/-- Witness for C7: a one-group input with only a null temperature gives
no summary, a one-group input with a usable temperature but a null
condition also gives no summary, and a single 25-degree Chennai point on
day 1 gives the one-point summary. -/
theorem c7_empty_and_minimal_inputs_witness :
    calculate_daily_summary allNullPoints = none
    ∧ calculate_daily_summary noCondPoints = none
    ∧ round2 25 = 25
    ∧ calculate_daily_summary [⟨86401, "Chennai", some 25, some "Mist"⟩]
        = some [⟨1, "Chennai", 25, 25, 25, "Mist", 1, 1⟩] := by
  have hrt : round2 (25 : ℚ) = 25 := by norm_num [round2, rhe]
  refine ⟨c7_empty_and_minimal_inputs.2.2.1 allNullPoints
    (by simp [allNullPoints]), ?_, hrt, ?_⟩
  · exact c7_empty_and_minimal_inputs.2.1 noCondPoints (by decide)
  · have h := c7_empty_and_minimal_inputs.2.2.2 86401 "Chennai" 25 "Mist" hrt
    rw [h]
    norm_num [dateOf]

/-! ### Summary storage theorems -/

theorem sameKey_toRow (src : String) (s : DailySummaryRec) :
    sameKey s src (toRow src s) = true := by
  simp [sameKey, toRow]

theorem upsertSummary_spec (src : String) (s : DailySummaryRec) :
    ∀ db : List SummaryRow,
      db.countP (sameKey s src) ≤ 1 →
      (upsertSummary src s db).filter (sameKey s src) = [toRow src s]
      ∧ (upsertSummary src s db).length
          = (if db.countP (sameKey s src) = 0
             then db.length + 1 else db.length) := by
  intro db
  induction db with
  | nil =>
    intro _
    constructor
    · simp [upsertSummary, List.filter_cons, sameKey_toRow]
    · simp [upsertSummary]
  | cons r rs ih =>
    intro h
    by_cases hr : sameKey s src r = true
    · rw [show upsertSummary src s (r :: rs) = toRow src s :: rs by
        simp [upsertSummary, hr]]
      rw [List.countP_cons_of_pos _ _ hr] at h
      have hzero : rs.countP (sameKey s src) = 0 := by omega
      have hfil : rs.filter (sameKey s src) = [] :=
        List.filter_eq_nil_iff.mpr (List.countP_eq_zero.mp hzero)
      constructor
      · rw [List.filter_cons_of_pos (sameKey_toRow src s), hfil]
      · rw [List.countP_cons_of_pos _ _ hr]
        simp
    · rw [show upsertSummary src s (r :: rs) = r :: upsertSummary src s rs by
        simp [upsertSummary, hr]]
      rw [List.countP_cons_of_neg _ _ (by simpa using hr)] at h
      obtain ⟨ih1, ih2⟩ := ih h
      constructor
      · rw [List.filter_cons_of_neg (by simpa using hr), ih1]
      · rw [List.countP_cons_of_neg _ _ (by simpa using hr)]
        simp only [List.length_cons, ih2]
        split_ifs <;> omega

/-- C6: storing a daily summary is an idempotent upsert keyed by
`(date, city, data-source-tag)`: starting from any database with at most
one row for the summary's key, after one write exactly one row carries
that key and it equals the summary's row; writing the same summary again
leaves the database size unchanged (no appended duplicate) and that
single row still equals the summary's row (the second write overwrites
the first's fields with equal values). -/
theorem c6_upsert_idempotent (src : String) (s : DailySummaryRec)
    (db : List SummaryRow) (h : db.countP (sameKey s src) ≤ 1) :
    (store_daily_summaries src [s] db).filter (sameKey s src)
        = [toRow src s]
    ∧ (store_daily_summaries src [s]
        (store_daily_summaries src [s] db)).filter (sameKey s src)
        = [toRow src s]
    ∧ (store_daily_summaries src [s]
        (store_daily_summaries src [s] db)).length
        = (store_daily_summaries src [s] db).length
    ∧ (store_daily_summaries src [s] db).length ≤ db.length + 1 := by
  have hstore : ∀ d : List SummaryRow,
      store_daily_summaries src [s] d = upsertSummary src s d :=
    fun d => rfl
  obtain ⟨h1, h2⟩ := upsertSummary_spec src s db h
  have hcount1 : (upsertSummary src s db).countP (sameKey s src) = 1 := by
    rw [List.countP_eq_length_filter, h1]
    rfl
  obtain ⟨h3, h4⟩ := upsertSummary_spec src s (upsertSummary src s db)
    (by omega)
  refine ⟨by rw [hstore]; exact h1, by rw [hstore, hstore]; exact h3, ?_, ?_⟩
  · rw [hstore, hstore, h4, hcount1]
    simp
  · rw [hstore, h2]
    split_ifs <;> omega

/-- Witness for C6: upserting the example summary twice into an empty
database. -/
theorem c6_upsert_idempotent_witness :
    ([] : List SummaryRow).countP (sameKey exampleSummary "mock") ≤ 1
    ∧ ((store_daily_summaries "mock" [exampleSummary] []).filter
          (sameKey exampleSummary "mock") = [toRow "mock" exampleSummary]
      ∧ (store_daily_summaries "mock" [exampleSummary]
          (store_daily_summaries "mock" [exampleSummary] [])).filter
          (sameKey exampleSummary "mock") = [toRow "mock" exampleSummary]
      ∧ (store_daily_summaries "mock" [exampleSummary]
          (store_daily_summaries "mock" [exampleSummary] [])).length
          = (store_daily_summaries "mock" [exampleSummary] []).length
      ∧ (store_daily_summaries "mock" [exampleSummary] []).length
          ≤ ([] : List SummaryRow).length + 1) :=
  ⟨by simp,
    c6_upsert_idempotent "mock" exampleSummary [] (by simp)⟩

/-! ### Mock generator theorems -/

theorem city_temp_ranges_le (city : String) :
    (city_temp_ranges city).1 ≤ (city_temp_ranges city).2 := by
  unfold city_temp_ranges
  split_ifs <;> decide

theorem round2_le_of_le_intCast (x : ℚ) (n : ℤ) (h : x ≤ (n : ℚ)) :
    round2 x ≤ (n : ℚ) := by
  calc round2 x ≤ round2 (n : ℚ) := round2_mono h
    _ = (n : ℚ) := round2_intCast n

theorem intCast_le_round2_of_le (x : ℚ) (n : ℤ) (h : (n : ℚ) ≤ x) :
    (n : ℚ) ≤ round2 x := by
  calc (n : ℚ) = round2 (n : ℚ) := (round2_intCast n).symm
    _ ≤ round2 x := round2_mono h

theorem mkMockPoint_bounds (sinF : ℚ → ℚ) (piQ : ℚ) (jT jF : ℕ → ℚ)
    (pick : ℕ → ℕ) (idx : ℕ) (city : String) (ts : ℤ)
    (hsin : ∀ x, -1 ≤ sinF x ∧ sinF x ≤ 1)
    (hjT : ∀ i, -2 ≤ jT i ∧ jT i ≤ 2)
    (hjF : ∀ i, -2 ≤ jF i ∧ jF i ≤ 2) :
    ∃ mb tv fv,
      (mkMockPoint sinF piQ jT jF pick idx city ts).name = some city
      ∧ (mkMockPoint sinF piQ jT jF pick idx city ts).main = some mb
      ∧ mb.temp = some tv ∧ mb.feels_like = some fv
      ∧ ((city_temp_ranges city).1 : ℚ) - 4 ≤ tv
      ∧ tv ≤ ((city_temp_ranges city).2 : ℚ) + 4
      ∧ ((city_temp_ranges city).1 : ℚ) - 4 ≤ fv
      ∧ fv ≤ ((city_temp_ranges city).2 : ℚ) + 4 := by
  have hlohi : ((city_temp_ranges city).1 : ℚ)
      ≤ ((city_temp_ranges city).2 : ℚ) := by
    exact_mod_cast city_temp_ranges_le city
  obtain ⟨hs1, hs2⟩ :=
    hsin (((Int.ediv ts 3600) % 24 : ℤ) * piQ / 12 - piQ / 2)
  obtain ⟨hjT1, hjT2⟩ := hjT idx
  obtain ⟨hjF1, hjF2⟩ := hjF idx
  set lo : ℚ := ((city_temp_ranges city).1 : ℚ)
  set hi : ℚ := ((city_temp_ranges city).2 : ℚ)
  set fac : ℚ :=
    (sinF (((Int.ediv ts 3600) % 24 : ℤ) * piQ / 12 - piQ / 2) + 1) / 2
  have hfac0 : 0 ≤ fac := by unfold_let fac; linarith
  have hfac1 : fac ≤ 1 := by unfold_let fac; linarith
  have hmul0 : 0 ≤ fac * (hi - lo) :=
    mul_nonneg hfac0 (by linarith)
  have hmul1 : fac * (hi - lo) ≤ hi - lo :=
    mul_le_of_le_one_left (by linarith) hfac1
  have hblo : lo ≤ lo + fac * (hi - lo) := by linarith
  have hbhi : lo + fac * (hi - lo) ≤ hi := by linarith
  have hlo2 : (((city_temp_ranges city).1 - 2 : ℤ) : ℚ)
      ≤ lo + fac * (hi - lo) + jT idx := by push_cast; linarith
  have hhi2 : lo + fac * (hi - lo) + jT idx
      ≤ (((city_temp_ranges city).2 + 2 : ℤ) : ℚ) := by push_cast; linarith
  have hlo4 : (((city_temp_ranges city).1 - 4 : ℤ) : ℚ)
      ≤ lo + fac * (hi - lo) + jT idx + jF idx := by push_cast; linarith
  have hhi4 : lo + fac * (hi - lo) + jT idx + jF idx
      ≤ (((city_temp_ranges city).2 + 4 : ℤ) : ℚ) := by push_cast; linarith
  refine ⟨_, _, _, rfl, rfl, rfl, rfl, ?_, ?_, ?_, ?_⟩
  · have := intCast_le_round2_of_le _ _ hlo2
    unfold_let lo at *
    push_cast at this ⊢
    linarith
  · have := round2_le_of_le_intCast _ _ hhi2
    unfold_let hi at *
    push_cast at this ⊢
    linarith
  · have := intCast_le_round2_of_le _ _ hlo4
    unfold_let lo at *
    push_cast at this ⊢
    linarith
  · have := round2_le_of_le_intCast _ _ hhi4
    unfold_let hi at *
    push_cast at this ⊢
    linarith

/-- C8: for any city list and any window with `start ≤ end`, the mock
generator emits exactly one reading per city per 10-minute tick with
boundary-inclusive stepping — `cities × (floor((end−start) in minutes / 10) + 1)`
readings in total — and every generated temperature (and feels-like
temperature) lies within `[band.min − 4, band.max + 4]` of the city's
configured band (default `(15, 35)`), for any jitter draws in `[-2, 2]`
and any `sin` values in `[-1, 1]`. -/
theorem c8_mock_generator (sinF : ℚ → ℚ) (piQ : ℚ) (jT jF : ℕ → ℚ)
    (pick : ℕ → ℕ) (cities : List String) (startT endT : ℤ)
    (hsin : ∀ x, -1 ≤ sinF x ∧ sinF x ≤ 1)
    (hjT : ∀ i, -2 ≤ jT i ∧ jT i ≤ 2)
    (hjF : ∀ i, -2 ≤ jF i ∧ jF i ≤ 2) :
    (startT ≤ endT →
      (generate_mock_weather_data sinF piQ jT jF pick cities
          startT endT).length
        = cities.length * ((endT - startT).toNat / 60 / 10 + 1))
    ∧ ∀ p ∈ generate_mock_weather_data sinF piQ jT jF pick cities
        startT endT,
        ∃ city mb tv fv,
          p.name = some city ∧ p.main = some mb
          ∧ mb.temp = some tv ∧ mb.feels_like = some fv
          ∧ ((city_temp_ranges city).1 : ℚ) - 4 ≤ tv
          ∧ tv ≤ ((city_temp_ranges city).2 : ℚ) + 4
          ∧ ((city_temp_ranges city).1 : ℚ) - 4 ≤ fv
          ∧ fv ≤ ((city_temp_ranges city).2 : ℚ) + 4 := by
  constructor
  · intro hse
    have hdd : (endT - startT).toNat / 60 / 10
        = (endT - startT).toNat / 600 := by
      rw [Nat.div_div_eq_div_mul]
    rw [hdd]
    unfold generate_mock_weather_data numTicks
    rw [if_pos hse, List.length_flatMap]
    have hconst : (List.range ((endT - startT).toNat / 600 + 1)).map
        (List.length ∘ fun t => cities.enum.map (fun ci =>
          mkMockPoint sinF piQ jT jF pick (t * cities.length + ci.1) ci.2
            (startT + 600 * t)))
        = (List.range ((endT - startT).toNat / 600 + 1)).map
          (fun _ => cities.length) := by
      apply List.map_congr_left
      intro t _
      simp [List.enum_length]
    rw [hconst, List.map_const', List.sum_replicate, smul_eq_mul,
      List.length_range, Nat.mul_comm]
  · intro p hp
    obtain ⟨t, _, hp⟩ := List.mem_flatMap.mp hp
    obtain ⟨ci, _, rfl⟩ := List.mem_map.mp hp
    exact ⟨ci.2, mkMockPoint_bounds sinF piQ jT jF pick
      (t * cities.length + ci.1) ci.2 (startT + 600 * t) hsin hjT hjF⟩

/-- Witness for C8: one city, a one-hour window, zero jitter and a zero
`sin` oracle. -/
theorem c8_mock_generator_witness :
    ((0 : ℤ) ≤ 3600)
    ∧ (generate_mock_weather_data (fun _ => 0) 3 (fun _ => 0) (fun _ => 0)
        (fun _ => 0) ["Delhi"] 0 3600).length
      = ["Delhi"].length * (((3600 : ℤ) - 0).toNat / 60 / 10 + 1)
    ∧ ∀ p ∈ generate_mock_weather_data (fun _ => 0) 3 (fun _ => 0)
        (fun _ => 0) (fun _ => 0) ["Delhi"] 0 3600,
        ∃ city mb tv fv,
          p.name = some city ∧ p.main = some mb
          ∧ mb.temp = some tv ∧ mb.feels_like = some fv
          ∧ ((city_temp_ranges city).1 : ℚ) - 4 ≤ tv
          ∧ tv ≤ ((city_temp_ranges city).2 : ℚ) + 4
          ∧ ((city_temp_ranges city).1 : ℚ) - 4 ≤ fv
          ∧ fv ≤ ((city_temp_ranges city).2 : ℚ) + 4 := by
  have h := c8_mock_generator (fun _ => 0) 3 (fun _ => 0) (fun _ => 0)
    (fun _ => 0) ["Delhi"] 0 3600
    (fun _ => by norm_num) (fun _ => by norm_num) (fun _ => by norm_num)
  exact ⟨by norm_num, h.1 (by norm_num), h.2⟩

end WeatherMonitor
